import Mathlib

/-!
# Verification of the EEG score checklist application

A shallow embedding of the original logic of the repository
(`dynamic_form.py` and `document_generator.py`): Python string helpers
(`str.replace`, `str.title`, `str.isdigit`, `str.strip`, substring test),
the section classification and grouping of `_group_data_by_sections`,
field-label formatting (`_format_field_name`), placeholder substitution
(`_replace_placeholders_in_paragraph`), numeric coercion at data-collection
time (`collect_data` / `is_number_field`), the `"today"` default handling
(`create_field` / `clear_form`), PDF cell truncation
(`generate_pdf_document`), and the export error-wrapping policy.

Strings are modelled through their character lists; machine floats are
modelled as exact decimals `num / 10 ^ exp` (the only float values the
embedded code produces come from parsing decimal literals).
-/

namespace EEG

/-! ## Python string primitives -/

/-- Characters treated as whitespace by Python's `str.strip()` (ASCII model:
space, tab, newline, carriage return, vertical tab, form feed). -/
def isPySpace (c : Char) : Bool :=
  c = ' ' || c = '\t' || c = '\n' || c = '\r' || c = '\x0b' || c = '\x0c'

/-- Remove trailing Python whitespace from a character list. -/
def rstripPy (l : List Char) : List Char :=
  (l.reverse.dropWhile isPySpace).reverse

/-- Remove leading and trailing Python whitespace (model of `str.strip()`). -/
def stripPy (l : List Char) : List Char :=
  (rstripPy l).dropWhile isPySpace

/-- Model of Python `str.strip()` on strings. -/
def pyStrip (s : String) : String :=
  ⟨stripPy s.data⟩

/-- One fuel-indexed pass of Python `str.replace`: scan left to right,
replacing each non-overlapping occurrence of `pat` by `rep`.  The fuel is
only a structural-recursion device; `fuel ≥ s.length` always suffices. -/
def replaceFuel (pat rep : List Char) : Nat → List Char → List Char
  | 0, s => s
  | _ + 1, [] => []
  | fuel + 1, c :: rest =>
    if pat ≠ [] ∧ List.isPrefixOf pat (c :: rest) then
      rep ++ replaceFuel pat rep fuel (List.drop (pat.length - 1) rest)
    else
      c :: replaceFuel pat rep fuel rest

/-- Model of Python `str.replace(pat, rep)` for a non-empty pattern:
replace every non-overlapping occurrence, scanning left to right. -/
def replaceL (pat rep s : List Char) : List Char :=
  replaceFuel pat rep s.length s

/-- Model of Python `str.replace` on strings. -/
def pyReplace (s pat rep : String) : String :=
  ⟨replaceL pat.data rep.data s.data⟩

/-- Model of the Python substring test `pat in s`. -/
def containsL (pat : List Char) : List Char → Bool
  | [] => pat.isEmpty
  | c :: rest => List.isPrefixOf pat (c :: rest) || containsL pat rest

/-- Model of Python `s.startswith(p)` (ASCII model). -/
def pyStartswith (s p : String) : Bool :=
  List.isPrefixOf p.data s.data

/-- A character participates in `str.title()` word boundaries iff it is
cased; ASCII model: letters. -/
def isCased (c : Char) : Bool := c.isAlpha

/-- Worker for `str.title()`: a cased character is uppercased when the
previous character was not cased, lowercased otherwise. -/
def titleAux : Bool → List Char → List Char
  | _, [] => []
  | prevCased, c :: rest =>
    (if isCased c then (if prevCased then c.toLower else c.toUpper) else c)
      :: titleAux (isCased c) rest

/-- Model of Python `str.title()` (ASCII model). -/
def pyTitle (s : String) : String :=
  ⟨titleAux false s.data⟩

/-- Model of Python `str.isdigit()` (ASCII model: non-empty and all
characters decimal digits). -/
def pyIsdigit (s : String) : Bool :=
  !s.data.isEmpty && s.data.all Char.isDigit

/-- Value of a decimal digit string read in base 10. -/
def digitsToNat (l : List Char) : Nat :=
  l.foldl (fun a c => a * 10 + (c.toNat - 48)) 0

/-! ## Values

`FormData` values are Python strings, ints, floats and bools (plus `None`,
which JSON data may carry).  A float is represented exactly as
`num / 10 ^ exp`: the only floats produced by the embedded code come from
parsing finite decimal literals, which this representation captures
without rounding. -/

inductive Value where
  | str (s : String)
  | int (n : Int)
  | float (num : Int) (exp : Nat)
  | bool (b : Bool)
  | none
  deriving DecidableEq, Repr

/-- Decimal digits of a natural number, most significant first. -/
def natDigits (n : Nat) : List Char :=
  (Nat.toDigits 10 n)

/-- Model of Python `str()` of a float represented as `num / 10 ^ exp`:
sign, the digits of `num` with a decimal point `exp` places from the right
(integral values print with a trailing `.0`).  Python additionally
normalises away trailing fractional zeros; no theorem below depends on
that normalisation. -/
def floatRepr (num : Int) (exp : Nat) : String :=
  let sign := if num < 0 then "-" else ""
  let ds := natDigits num.natAbs
  let ds := if ds.length ≤ exp then List.replicate (exp + 1 - ds.length) '0' ++ ds else ds
  let ip := ds.take (ds.length - exp)
  let fp := ds.drop (ds.length - exp)
  sign ++ ⟨ip⟩ ++ "." ++ (if fp.isEmpty then "0" else ⟨fp⟩)

/-- Model of Python `str()` on form-data values. -/
def pyStr : Value → String
  | .str s => s
  | .int n => toString n
  | .float num exp => floatRepr num exp
  | .bool true => "True"
  | .bool false => "False"
  | .none => "None"

/-- `FormData`: the flat mapping from field id to collected value,
modelled as an insertion-ordered association list (a Python dict; its keys
are distinct). -/
abbrev FormData := List (String × Value)

/-! ## Section classification (`_group_data_by_sections`) -/

/-- The fixed prefix table of `_group_data_by_sections`, in the dict's
insertion order (Python dict iteration follows insertion order). -/
def fieldMapping : List (String × String) :=
  [("patient_", "Patient Information"),
   ("study_", "Patient Information"),
   ("indication", "Patient Information"),
   ("symmetry", "Background Activity"),
   ("predominant_", "Background Activity"),
   ("reactivity", "Background Activity"),
   ("organization", "Background Activity"),
   ("continuity", "Background Activity"),
   ("epileptiform_", "Epileptiform Activity"),
   ("hv_", "Provocation Responses"),
   ("photo_", "Provocation Responses"),
   ("impression", "Conclusion")]

/-- The six report sections in the declared order of the `sections` dict
of `_group_data_by_sections`. -/
def sectionOrder : List String :=
  ["Patient Information", "Background Activity", "Epileptiform Activity",
   "Provocation Responses", "Conclusion", "Other"]

/-- `key.startswith(prefix) or key == prefix`, as in the source. -/
def ruleMatches (key : String) (rule : String × String) : Bool :=
  pyStartswith key rule.1 || key == rule.1

/-- The section a key is assigned to: the first rule of `fieldMapping`
that matches wins; a key matching no rule falls into `Other`. -/
def classify (key : String) : String :=
  match fieldMapping.find? (ruleMatches key) with
  | some r => r.2
  | Option.none => "Other"

/-- The entries of `data` that land in section `sec`, in `data` order
(matching the insertion order of the per-section dicts built by
`_group_data_by_sections`). -/
def sectionEntries (data : FormData) (sec : String) : FormData :=
  data.filter (fun kv => classify kv.1 == sec)

/-- Model of `_group_data_by_sections`: one bucket per section in declared
order, then empty buckets removed (the final dict comprehension). -/
def groupDataBySections (data : FormData) : List (String × FormData) :=
  (sectionOrder.map (fun sec => (sec, sectionEntries data sec))).filter
    (fun p => !p.2.isEmpty)

/-! ## Field label formatting (`_format_field_name`) -/

/-- Model of `_format_field_name`: underscores to spaces, `str.title()`,
then the substring replacements `Hv`, `Photo`, `Eeg`, applied in the
insertion order of the `replacements` dict. -/
def format_field_name (field_name : String) : String :=
  let formatted := pyTitle (pyReplace field_name "_" " ")
  let formatted := pyReplace formatted "Hv" "Hyperventilation"
  let formatted := pyReplace formatted "Photo" "Photostimulation"
  pyReplace formatted "Eeg" "EEG"

/-! ## Numeric coercion (`collect_data` / `is_number_field`) -/

/-- Consume an optional leading sign; returns (isNegative, rest). -/
def parseSign : List Char → Bool × List Char
  | '-' :: rest => (true, rest)
  | '+' :: rest => (false, rest)
  | l => (false, l)

/-- Split a character list into its leading run of decimal digits and the
remainder. -/
def splitDigits (l : List Char) : List Char × List Char :=
  (l.takeWhile Char.isDigit, l.dropWhile Char.isDigit)

/-- Model of Python `float()` on finite decimal literals: optional
surrounding whitespace, optional sign, digits with an optional fractional
part, and an optional exponent.  The result is the exact decimal
`(num, exp)` standing for `num / 10 ^ exp`.  `inf`/`nan` literals and
digit-group underscores are not modelled. -/
def pyFloatOfDecimal (l : List Char) : Option (Int × Nat) :=
  let (neg, l1) := parseSign l
  let (ip, l2) := splitDigits l1
  let (fp, l3) :=
    match l2 with
    | '.' :: rest => splitDigits rest
    | _ => ([], l2)
  if ip = [] ∧ fp = [] then Option.none
  else
    let m : Int := (digitsToNat (ip ++ fp) : Int)
    let m := if neg then -m else m
    let k := fp.length
    match l3 with
    | 'e' :: rest | 'E' :: rest =>
      let (eneg, r1) := parseSign rest
      let (ed, r2) := splitDigits r1
      if ed = [] ∨ r2 ≠ [] then Option.none
      else if eneg then some (m, k + digitsToNat ed)
      else some (m * (10 : Int) ^ digitsToNat ed, k)
    | [] => some (m, k)
    | _ => Option.none

/-- Model of Python `float(s)` returning the parsed exact decimal, or
`none` where Python raises `ValueError`. -/
def pyFloatOf (s : String) : Option (Int × Nat) :=
  pyFloatOfDecimal (stripPy s.data)

/-- Modelled from the spec: "the interpreter attempts integer conversion
first" — Python `int(s)` on a decimal string (optional surrounding
whitespace, optional sign, digits), returning `none` where Python raises
`ValueError`.  The source gates the integer branch on `str.isdigit`
instead of on `int()` succeeding; this definition exists to state the
spec's reading and compare it with the code's behaviour. -/
def pyIntOf (s : String) : Option Int :=
  let (neg, l1) := parseSign (stripPy s.data)
  let (d, rest) := splitDigits l1
  if d = [] ∨ rest ≠ [] then Option.none
  else some (if neg then -(digitsToNat d : Int) else (digitsToNat d : Int))

/-- The coercion applied by `collect_data` to a non-empty value of a
number-typed field: `int(value) if value.isdigit() else float(value)`,
falling back to the raw string when `float` raises. -/
def pyNumCoerce (v : String) : Value :=
  if pyIsdigit v then Value.int (digitsToNat v.data)
  else
    match pyFloatOf v with
    | some (num, exp) => Value.float num exp
    | Option.none => Value.str v

/-! ## The form template and data collection -/

inductive FieldType where
  | text
  | number
  | date
  | select
  | checkbox
  | textarea
  deriving DecidableEq, Repr

/-- A field of the declarative template.  Default values are modelled as
strings (the claims under verification concern string defaults such as
`"today"`). -/
structure FieldSpec where
  id : String
  label : String
  type : FieldType
  dflt : String
  deriving DecidableEq, Repr

/-- A section of the declarative template. -/
structure FormSection where
  id : String
  title : String
  fields : List FieldSpec
  deriving DecidableEq, Repr

/-- The declarative form template (the parts data collection reads). -/
structure FormTemplate where
  sections : List FormSection
  deriving DecidableEq, Repr

/-- Model of `is_number_field`: scan sections then fields, first field
with a matching id decides; unknown ids are not numeric. -/
def is_number_field (tmpl : FormTemplate) (field_id : String) : Bool :=
  match (tmpl.sections.flatMap (fun s => s.fields)).find?
      (fun f => f.id == field_id) with
  | some f => f.type == FieldType.number
  | Option.none => false

/-- The live value of a `tk` variable: `BooleanVar` for checkboxes,
`StringVar` for text/date/number/select fields. -/
inductive VarVal where
  | boolVar (b : Bool)
  | strVar (s : String)
  deriving DecidableEq, Repr

/-- The live widget state `collect_data` reads: `self.variables` (one
entry per non-textarea field) and the `ScrolledText` widgets of
`self.widgets` (one entry per textarea field, holding the widget text
without the trailing newline that `get("1.0", END)` appends). -/
structure FormState where
  vars : List (String × VarVal)
  textareas : List (String × String)
  deriving DecidableEq, Repr

/-- Python dict assignment `data[k] = v` on the association-list model:
overwrite in place if the key exists, else append. -/
def setValue (data : FormData) (k : String) (v : Value) : FormData :=
  if data.any (fun kv => kv.1 == k) then
    data.map (fun kv => if kv.1 == k then (k, v) else kv)
  else data ++ [(k, v)]

/-- The value `collect_data` stores for one entry of `self.variables`. -/
def collectVar (tmpl : FormTemplate) (field_id : String) : VarVal → Value
  | .boolVar b => Value.bool b
  | .strVar s =>
    if is_number_field tmpl field_id && s != "" then pyNumCoerce s
    else Value.str s

/-- Model of `collect_data`: first the `self.variables` loop (with numeric
coercion), then the textarea loop, which stores the widget text — as
returned by `get("1.0", END)`, i.e. with a trailing newline — stripped of
surrounding whitespace.  Later assignments overwrite earlier ones, as in
a Python dict. -/
def collect_data (tmpl : FormTemplate) (st : FormState) : FormData :=
  let d1 := st.vars.foldl
    (fun d kv => setValue d kv.1 (collectVar tmpl kv.1 kv.2)) []
  st.textareas.foldl
    (fun d kv => setValue d kv.1 (Value.str (pyStrip (kv.2 ++ "\n")))) d1

/-- Dict lookup on the association-list model. -/
def lookupVal (data : FormData) (k : String) : Option Value :=
  (data.find? (fun kv => kv.1 == k)).map Prod.snd

/-! ## `"today"` defaults (`create_field` / `clear_form`) -/

/-- The value a form control holds.  `boolRaw` records the raw value
handed to `BooleanVar(value=...)` at construction without interpreting
the toolkit's coercion; no theorem below depends on it. -/
inductive CtrlVal where
  | strVal (s : String)
  | boolVal (b : Bool)
  | boolRaw (s : String)
  deriving DecidableEq, Repr

/-- The `"today"` substitution of `create_field` and the non-boolean
branch of `clear_form`: the literal default `"today"` becomes the current
date string (passed in as `today`, the value of
`datetime.now().strftime("%Y-%m-%d")`). -/
def resolveToday (today d : String) : String :=
  if d == "today" then today else d

/-- The control value right after `create_field`: the `"today"`
substitution runs before the type dispatch, so every field type sees the
resolved default (textareas via `insert`, the rest via their variable). -/
def initialValue (today : String) (f : FieldSpec) : CtrlVal :=
  let d := resolveToday today f.dflt
  match f.type with
  | .checkbox => .boolRaw d
  | _ => .strVal d

/-- The control value right after `clear_form`.  Checkbox variables get
`bool(default)`; string variables get the default with the `"today"`
substitution; textarea fields are not in `self.variables`, so their
branch runs on the raw default — the `"today"` substitution is skipped —
and the widget ends up holding the default text itself. -/
def clearValue (today : String) (f : FieldSpec) : CtrlVal :=
  match f.type with
  | .checkbox => .boolVal (f.dflt != "")
  | .textarea => .strVal f.dflt
  | _ => .strVal (resolveToday today f.dflt)

/-! ## Placeholder substitution (`_replace_placeholders_in_paragraph`) -/

/-- The placeholder token `\x7b\x7bkey\x7d\x7d` built by
`f"\x7b\x7b\x7b\x7b\x7bkey\x7d\x7d\x7d\x7d\x7d"`. -/
def placeholderL (key : List Char) : List Char :=
  '\x7b' :: '\x7b' :: (key ++ ['\x7d', '\x7d'])

/-- One iteration of the replacement loop: if the key's placeholder
occurs in the text, replace every occurrence by `str(value)`. -/
def replaceStep (text : String) (kv : String × Value) : String :=
  if containsL (placeholderL kv.1.data) text.data then
    ⟨replaceL (placeholderL kv.1.data) (pyStr kv.2).data text.data⟩
  else text

/-- Model of `_replace_placeholders_in_paragraph`: fold the replacement
over the `FormData` entries in dict (insertion) order; the paragraph text
comes out unchanged when nothing matched. -/
def fillParagraph (data : FormData) (text : String) : String :=
  data.foldl replaceStep text

/-- Modelled from the spec: a single simultaneous substitution pass over
the original paragraph (each position consumed at most once; a
placeholder token is looked up against the original data and its
replacement text is never rescanned), for comparison with the sequential
`fillParagraph`.  The fuel is a structural-recursion device;
`fuel ≥ l.length` always suffices. -/
def simFillFuel (data : FormData) : Nat → List Char → List Char
  | 0, l => l
  | _ + 1, [] => []
  | fuel + 1, c :: rest =>
    match data.find?
        (fun kv => List.isPrefixOf (placeholderL kv.1.data) (c :: rest)) with
    | some kv =>
      (pyStr kv.2).data ++
        simFillFuel data fuel
          (List.drop ((placeholderL kv.1.data).length - 1) rest)
    | Option.none => c :: simFillFuel data fuel rest

/-- Modelled from the spec: simultaneous substitution on strings. -/
def simFill (data : FormData) (text : String) : String :=
  ⟨simFillFuel data text.data.length text.data⟩

/-! ## PDF cell truncation (`generate_pdf_document`) -/

/-- `str(value) if value is not None else ''`, as in the PDF table loop. -/
def pdfFormattedValue (v : Value) : String :=
  match v with
  | .none => ""
  | _ => pyStr v

/-- The length guard of the PDF table loop: values longer than 50
characters are cut to their first 47 characters plus `"..."`. -/
def truncateCell (s : String) : String :=
  if s.length > 50 then ⟨s.data.take 47⟩ ++ "..." else s

/-- The cell text inserted for a value in the PDF table. -/
def pdfCellValue (v : Value) : String :=
  truncateCell (pdfFormattedValue v)

/-! ## Export error policy (`generate_word_document` / `generate_pdf_document`) -/

/-- A Python exception: its class name and its `str(e)` description. -/
structure PyExc where
  kind : String
  msg : String
  deriving DecidableEq, Repr

/-- The `try`/`except Exception` wrapper shared by both export paths:
any failure of the body is re-raised as a plain `Exception` whose message
prefixes the original description. -/
def wrapDocErrors (opName : String) (body : Except PyExc Unit) :
    Except PyExc Unit :=
  match body with
  | .ok u => .ok u
  | .error e =>
    .error ⟨"Exception", "Error generating " ++ opName ++ " document: " ++ e.msg⟩

/-- The error behaviour of `generate_word_document`, with the fallible
document construction and save abstracted as `body`. -/
def generate_word_document (body : Except PyExc Unit) : Except PyExc Unit :=
  wrapDocErrors "Word" body

/-- The error behaviour of `generate_pdf_document`, with the fallible
document construction and save abstracted as `body`. -/
def generate_pdf_document (body : Except PyExc Unit) : Except PyExc Unit :=
  wrapDocErrors "PDF" body

/-! ## Helper lemmas -/

theorem data_append (s t : String) : (s ++ t).data = s.data ++ t.data := rfl

theorem stripPy_append_newline (l : List Char) :
    stripPy (l ++ ['\n']) = stripPy l := by
  have h : rstripPy (l ++ ['\n']) = rstripPy l := by
    simp [rstripPy, List.dropWhile_cons, isPySpace]
  simp [stripPy, h]

theorem pyStrip_append_newline (s : String) :
    pyStrip (s ++ "\n") = pyStrip s := by
  simp [pyStrip, data_append, stripPy_append_newline]

theorem find?_map_replace_self (d : FormData) (k : String) (v : Value)
    (h : d.any (fun kv => kv.1 == k) = true) :
    (d.map (fun kv => if kv.1 == k then (k, v) else kv)).find?
      (fun kv => kv.1 == k) = some (k, v) := by
  induction d with
  | nil => simp at h
  | cons kv rest ih =>
    by_cases hk : (kv.1 == k) = true
    · rw [List.map_cons, if_pos hk]
      simp [List.find?_cons]
    · have hk0 : (kv.1 == k) = false := by simpa using hk
      rw [List.map_cons, if_neg hk]
      simp only [List.find?_cons, hk0]
      apply ih
      simp only [List.any_cons, hk0, Bool.false_or] at h
      exact h

theorem find?_map_replace_ne (d : FormData) (k k' : String) (v : Value)
    (h : k' ≠ k) :
    (d.map (fun kv => if kv.1 == k then (k, v) else kv)).find?
      (fun kv => kv.1 == k') = d.find? (fun kv => kv.1 == k') := by
  induction d with
  | nil => rfl
  | cons kv rest ih =>
    by_cases hk : (kv.1 == k) = true
    · have hkv : kv.1 = k := by simpa using hk
      have hf : ((k : String) == k') = false := by
        simpa using fun hc => h hc.symm
      have hf2 : (kv.1 == k') = false := by rw [hkv]; exact hf
      rw [List.map_cons, if_pos hk]
      simp only [List.find?_cons, hf, hf2, ih]
    · rw [List.map_cons, if_neg hk]
      by_cases hk' : (kv.1 == k') = true
      · simp only [List.find?_cons, hk']
      · have hk0 : (kv.1 == k') = false := by simpa using hk'
        simp only [List.find?_cons, hk0, ih]

theorem lookupVal_setValue_self (d : FormData) (k : String) (v : Value) :
    lookupVal (setValue d k v) k = some v := by
  unfold setValue lookupVal
  by_cases ha : d.any (fun kv => kv.1 == k) = true
  · rw [if_pos ha, find?_map_replace_self d k v ha]
    rfl
  · rw [if_neg ha]
    have ha' : d.any (fun kv => kv.1 == k) = false := by
      cases hb : d.any (fun kv => kv.1 == k) with
      | false => rfl
      | true => exact absurd hb ha
    have hnone : d.find? (fun kv => kv.1 == k) = none :=
      List.find?_eq_none.mpr (List.any_eq_false.mp ha')
    rw [List.find?_append, hnone]
    simp

theorem lookupVal_setValue_ne (d : FormData) (k k' : String) (v : Value)
    (h : k' ≠ k) :
    lookupVal (setValue d k v) k' = lookupVal d k' := by
  unfold setValue lookupVal
  by_cases ha : d.any (fun kv => kv.1 == k) = true
  · rw [if_pos ha, find?_map_replace_ne d k k' v h]
  · rw [if_neg ha, List.find?_append]
    have hkk' : ((k : String) == k') = false := by
      simpa using fun hc => h hc.symm
    have hsingle : [(k, v)].find? (fun kv => kv.1 == k') = none := by
      simp only [List.find?_cons, hkk', List.find?_nil]
    rw [hsingle, Option.or_none]

theorem lookupVal_foldl_set_of_not_mem {β : Type} (g : String × β → Value)
    (l : List (String × β)) (init : FormData) (fid : String)
    (h : ∀ kv ∈ l, fid ≠ kv.1) :
    lookupVal (l.foldl (fun d kv => setValue d kv.1 (g kv)) init) fid =
      lookupVal init fid := by
  induction l generalizing init with
  | nil => rfl
  | cons kv rest ih =>
    rw [List.foldl_cons, ih _ (fun kv' hk => h kv' (List.mem_cons_of_mem _ hk))]
    exact lookupVal_setValue_ne init kv.1 fid (g kv) (h kv (List.mem_cons_self _ _))

theorem lookupVal_foldl_set_mem {β : Type} (g : String × β → Value)
    (l : List (String × β)) (init : FormData) (fid : String) (x : β)
    (hmem : (fid, x) ∈ l) (hnd : (l.map Prod.fst).Nodup) :
    lookupVal (l.foldl (fun d kv => setValue d kv.1 (g kv)) init) fid =
      some (g (fid, x)) := by
  induction l generalizing init with
  | nil => cases hmem
  | cons kv rest ih =>
    have hnd' : (kv.1 :: rest.map Prod.fst).Nodup := by simpa using hnd
    rw [List.foldl_cons]
    rcases List.mem_cons.mp hmem with heq | hrest
    · have hnotin : ∀ kv' ∈ rest, fid ≠ kv'.1 := by
        intro kv' hk' hcontra
        have hni : kv.1 ∉ rest.map Prod.fst := (List.nodup_cons.mp hnd').1
        have hk1 : kv.1 = fid := by rw [← heq]
        exact hni (hk1 ▸ hcontra ▸ List.mem_map_of_mem Prod.fst hk')
      rw [lookupVal_foldl_set_of_not_mem g rest _ fid hnotin, ← heq]
      exact lookupVal_setValue_self init fid (g (fid, x))
    · exact ih _ hrest (List.nodup_cons.mp hnd').2

/-! ## The claims -/

/-- C2: field label formatting replaces underscores with spaces,
title-cases, then applies the substring replacements on the title-cased
string; in particular `format_field_name "patient_name" = "Patient Name"`,
`format_field_name "hv_response" = "Hyperventilation Response"` and
`format_field_name "eeg_score" = "EEG Score"`. -/
theorem C2_field_label_formatting :
    format_field_name "patient_name" = "Patient Name" ∧
    format_field_name "hv_response" = "Hyperventilation Response" ∧
    format_field_name "eeg_score" = "EEG Score" := by
  decide

/-- C3: template-fill substitution replaces every present placeholder by
the string form of its value — on the spec's example the paragraph
`"Name: \x7b\x7bpatient_name\x7d\x7d, Age: \x7b\x7bpatient_age\x7d\x7d"`
with data `patient_name = "Jane"`, `patient_age = 30` yields exactly
`"Name: Jane, Age: 30"` — and a paragraph containing no matching
placeholder is left untouched. -/
theorem C3_template_fill :
    (∀ (data : FormData) (text : String),
      (∀ kv ∈ data, containsL (placeholderL kv.1.data) text.data = false) →
      fillParagraph data text = text) ∧
    fillParagraph
        [("patient_name", Value.str "Jane"), ("patient_age", Value.int 30)]
        "Name: \x7b\x7bpatient_name\x7d\x7d, Age: \x7b\x7bpatient_age\x7d\x7d" =
      "Name: Jane, Age: 30" := by
  constructor
  · intro data
    induction data with
    | nil => intro text _; rfl
    | cons kv rest ih =>
      intro text h
      have h0 : containsL (placeholderL kv.1.data) text.data = false :=
        h kv (List.mem_cons_self _ _)
      have hstep : replaceStep text kv = text := by
        simp [replaceStep, h0]
      simp only [fillParagraph, List.foldl_cons, hstep]
      exact ih text (fun kv' hk => h kv' (List.mem_cons_of_mem _ hk))
  · decide

/-- Witness for C3 at a concrete paragraph with no matching placeholder. -/
theorem C3_template_fill_witness :
    fillParagraph [("patient_name", Value.str "Jane")]
      "No placeholders here." = "No placeholders here." :=
  C3_template_fill.1 _ _ (by decide)

/-- The data exhibiting sequential substitution: the value of key `a`
contains the placeholder of key `b`. -/
def chainData : FormData :=
  [("a", Value.str "\x7b\x7bb\x7d\x7d"), ("b", Value.str "X")]

/-- C10: substitution is sequential, not simultaneous — replacing
`\x7b\x7ba\x7d\x7d` by `\x7b\x7bb\x7d\x7d` exposes the token of `b`,
which the later iteration also replaces, so the result differs from a
single simultaneous substitution over the original paragraph. -/
theorem C10_sequential_substitution :
    fillParagraph chainData "\x7b\x7ba\x7d\x7d" = "X" ∧
    simFill chainData "\x7b\x7ba\x7d\x7d" = "\x7b\x7bb\x7d\x7d" ∧
    fillParagraph chainData "\x7b\x7ba\x7d\x7d" ≠
      simFill chainData "\x7b\x7ba\x7d\x7d" := by
  decide

/-- C5: a formatted value longer than 50 characters is cut to its first
47 characters plus `"..."` in the PDF table cell (a value of length 60
therefore lands at exactly 50 characters); a value of length at most 50
is unchanged. -/
theorem C5_pdf_truncation (v : Value) :
    ((pdfFormattedValue v).length > 50 →
      pdfCellValue v = ⟨(pdfFormattedValue v).data.take 47⟩ ++ "..." ∧
      (pdfCellValue v).length = 50) ∧
    ((pdfFormattedValue v).length ≤ 50 →
      pdfCellValue v = pdfFormattedValue v) ∧
    ((pdfFormattedValue v).length = 60 → (pdfCellValue v).length = 50) := by
  have hcell : pdfCellValue v = truncateCell (pdfFormattedValue v) := rfl
  have hlen : (pdfFormattedValue v).length = (pdfFormattedValue v).data.length := rfl
  refine ⟨?_, ?_, ?_⟩
  · intro hgt
    have heq : pdfCellValue v = ⟨(pdfFormattedValue v).data.take 47⟩ ++ "..." := by
      rw [hcell, truncateCell, if_pos hgt]
    refine ⟨heq, ?_⟩
    rw [heq, String.length_append]
    have h47 : ((⟨(pdfFormattedValue v).data.take 47⟩ : String)).length = 47 := by
      show ((pdfFormattedValue v).data.take 47).length = 47
      rw [List.length_take]
      omega
    rw [h47]
    rfl
  · intro hle
    rw [hcell, truncateCell, if_neg (by omega)]
  · intro h60
    have hgt : (pdfFormattedValue v).length > 50 := by omega
    have heq : pdfCellValue v = ⟨(pdfFormattedValue v).data.take 47⟩ ++ "..." := by
      rw [hcell, truncateCell, if_pos hgt]
    rw [heq, String.length_append]
    have h47 : ((⟨(pdfFormattedValue v).data.take 47⟩ : String)).length = 47 := by
      show ((pdfFormattedValue v).data.take 47).length = 47
      rw [List.length_take]
      omega
    rw [h47]
    rfl

/-- Witness for C5 at a concrete 60-character value. -/
theorem C5_pdf_truncation_witness :
    (pdfCellValue (Value.str
      "aaaaaaaaaaaaaaaaaaaaaaaaaaaaaaaaaaaaaaaaaaaaaaaaaaaaaaaaaaaa")).length = 50 :=
  (C5_pdf_truncation _).2.2 (by decide)

/-- C8: both export paths catch any failure of document construction or
save and re-raise it as a single generic `Exception` whose message
carries the original failure's description; no error of any other kind
escapes. -/
theorem C8_export_error_policy (body : Except PyExc Unit) :
    (∀ u, body = .ok u → generate_word_document body = .ok u ∧
      generate_pdf_document body = .ok u) ∧
    (∀ e, body = .error e →
      generate_word_document body =
        .error ⟨"Exception", "Error generating Word document: " ++ e.msg⟩ ∧
      generate_pdf_document body =
        .error ⟨"Exception", "Error generating PDF document: " ++ e.msg⟩) ∧
    (∀ exc, generate_word_document body = .error exc →
      exc.kind = "Exception") ∧
    (∀ exc, generate_pdf_document body = .error exc →
      exc.kind = "Exception") := by
  cases body with
  | ok u =>
    refine ⟨?_, ?_, ?_, ?_⟩
    · intro u' h
      cases h
      exact ⟨rfl, rfl⟩
    · intro e h
      cases h
    · intro exc h
      simp [generate_word_document, wrapDocErrors] at h
    · intro exc h
      simp [generate_pdf_document, wrapDocErrors] at h
  | error e =>
    refine ⟨?_, ?_, ?_, ?_⟩
    · intro u' h
      cases h
    · intro e' h
      cases h
      exact ⟨rfl, rfl⟩
    · intro exc h
      simp only [generate_word_document, wrapDocErrors, Except.error.injEq] at h
      rw [← h]
    · intro exc h
      simp only [generate_pdf_document, wrapDocErrors, Except.error.injEq] at h
      rw [← h]

/-- Witness for C8 at a concrete failing body. -/
theorem C8_export_error_policy_witness :
    generate_word_document (.error ⟨"OSError", "disk full"⟩) =
      .error ⟨"Exception", "Error generating Word document: disk full"⟩ ∧
    generate_pdf_document (.error ⟨"OSError", "disk full"⟩) =
      .error ⟨"Exception", "Error generating PDF document: disk full"⟩ :=
  (C8_export_error_policy _).2.1 ⟨"OSError", "disk full"⟩ rfl

/-- C1: section classification is deterministic and total — every key is
assigned one of the six named sections; a key falls into `Other` exactly
when no rule of the fixed prefix table matches it; and when the table is
split around a matching rule with no earlier match, that rule decides the
section (first match wins in table order). -/
theorem C1_section_classification (key : String) :
    classify key ∈ sectionOrder ∧
    (classify key = "Other" ↔ ∀ r ∈ fieldMapping, ruleMatches key r = false) ∧
    ∀ l₁ r l₂, fieldMapping = l₁ ++ r :: l₂ → ruleMatches key r = true →
      (∀ r' ∈ l₁, ruleMatches key r' = false) → classify key = r.2 := by
  refine ⟨?_, ⟨?_, ?_⟩, ?_⟩
  · unfold classify
    cases hf : fieldMapping.find? (ruleMatches key) with
    | none => decide
    | some r =>
      have hr : r ∈ fieldMapping := List.mem_of_find?_eq_some hf
      have hall : ∀ x ∈ fieldMapping, x.2 ∈ sectionOrder := by decide
      exact hall r hr
  · intro h
    cases hf : fieldMapping.find? (ruleMatches key) with
    | none =>
      intro r hr
      have := List.find?_eq_none.mp hf r hr
      simpa using this
    | some r =>
      exfalso
      have hr : r ∈ fieldMapping := List.mem_of_find?_eq_some hf
      have h2 : classify key = r.2 := by unfold classify; rw [hf]
      have hno : ∀ x ∈ fieldMapping, x.2 ≠ "Other" := by decide
      exact hno r hr (h2.symm.trans h)
  · intro h
    have hf : fieldMapping.find? (ruleMatches key) = none :=
      List.find?_eq_none.mpr (fun x hx => by simp [h x hx])
    unfold classify
    rw [hf]
  · intro l₁ r l₂ heq hm hnone
    have hf1 : l₁.find? (ruleMatches key) = none :=
      List.find?_eq_none.mpr (fun x hx => by simp [hnone x hx])
    have hf : fieldMapping.find? (ruleMatches key) = some r := by
      rw [heq, List.find?_append, hf1, List.find?_cons_of_pos _ hm]
      rfl
    unfold classify
    rw [hf]

/-- Witness for C1: a `patient_` key lands in Patient Information by the
first rule, and an unconfigured key lands in `Other`. -/
theorem C1_section_classification_witness :
    classify "patient_name" = "Patient Information" ∧
    classify "zzz_unknown" = "Other" := by
  constructor
  · exact (C1_section_classification "patient_name").2.2 []
      ("patient_", "Patient Information")
      [("study_", "Patient Information"),
       ("indication", "Patient Information"),
       ("symmetry", "Background Activity"),
       ("predominant_", "Background Activity"),
       ("reactivity", "Background Activity"),
       ("organization", "Background Activity"),
       ("continuity", "Background Activity"),
       ("epileptiform_", "Epileptiform Activity"),
       ("hv_", "Provocation Responses"),
       ("photo_", "Provocation Responses"),
       ("impression", "Conclusion")]
      rfl (by decide) (by decide)
  · exact ((C1_section_classification "zzz_unknown").2.1).mpr (by decide)

/-- C6: the grouping result contains no empty section, its section names
appear in the declared table order (a sublist of `sectionOrder`), and a
declared section appears exactly when some key of the data classifies
into it. -/
theorem C6_empty_sections_omitted (data : FormData) :
    (∀ p ∈ groupDataBySections data, p.2 ≠ []) ∧
    ((groupDataBySections data).map Prod.fst).Sublist sectionOrder ∧
    ∀ sec ∈ sectionOrder,
      (sec ∈ (groupDataBySections data).map Prod.fst ↔
        ∃ kv ∈ data, classify kv.1 = sec) := by
  refine ⟨?_, ?_, ?_⟩
  · intro p hp
    have h2 := (List.mem_filter.mp hp).2
    intro hnil
    simp [hnil] at h2
  · have h1 : (groupDataBySections data).Sublist
        (sectionOrder.map (fun sec => (sec, sectionEntries data sec))) :=
      List.filter_sublist _
    have h2 := h1.map Prod.fst
    rw [List.map_map] at h2
    simpa [Function.comp] using h2
  · intro sec hsec
    constructor
    · intro hmem
      obtain ⟨p, hp, hfst⟩ := List.mem_map.mp hmem
      have hp' := List.mem_filter.mp hp
      obtain ⟨sec', hsec', hpe⟩ := List.mem_map.mp hp'.1
      have hne := hp'.2
      subst hpe
      cases hfst
      have hnnil : sectionEntries data sec' ≠ [] := by
        intro h0
        simp [h0] at hne
      obtain ⟨kv, hkv⟩ := List.exists_mem_of_ne_nil _ hnnil
      have hkv' := List.mem_filter.mp hkv
      refine ⟨kv, hkv'.1, ?_⟩
      simpa using hkv'.2
    · rintro ⟨kv, hkv, hcl⟩
      apply List.mem_map.mpr
      refine ⟨(sec, sectionEntries data sec), ?_, rfl⟩
      apply List.mem_filter.mpr
      refine ⟨List.mem_map_of_mem _ hsec, ?_⟩
      have hkvf : kv ∈ sectionEntries data sec :=
        List.mem_filter.mpr ⟨hkv, by simp [hcl]⟩
      have := List.ne_nil_of_mem hkvf
      simp [List.isEmpty_iff, this]

/-- Witness for C6: with a single unconfigured key, `Other` appears in
the grouping. -/
theorem C6_empty_sections_omitted_witness :
    "Other" ∈ (groupDataBySections [("zzz", Value.str "v")]).map Prod.fst :=
  ((C6_empty_sections_omitted [("zzz", Value.str "v")]).2.2 "Other"
    (by decide)).mpr ⟨("zzz", Value.str "v"), by decide, by decide⟩

/-- A textarea field whose template default is the literal `"today"`. -/
def todayTextarea : FieldSpec :=
  ⟨"clinical_notes", "Notes:", .textarea, "today"⟩

/-- Counterexample to C7 as stated: for a textarea field with default
`"today"`, the initial value is the current date, but `clear_form` skips
the `"today"` substitution for textareas (they are not in
`self.variables`), so the post-clear value is the literal string
`"today"`, not the date. -/
theorem C7_counterexample :
    todayTextarea.dflt = "today" ∧
    initialValue "2024-01-15" todayTextarea = CtrlVal.strVal "2024-01-15" ∧
    clearValue "2024-01-15" todayTextarea = CtrlVal.strVal "today" ∧
    ¬(initialValue "2024-01-15" todayTextarea = CtrlVal.strVal "2024-01-15" ∧
      clearValue "2024-01-15" todayTextarea = CtrlVal.strVal "2024-01-15") := by
  decide

/-- C7 amended: for fields of type text, date, number or select with
default `"today"`, both the initial and the post-clear value equal the
current date string; for textarea fields the initial value equals the
current date but the post-clear value is the literal `"today"`. -/
theorem C7_today_default (today : String) (f : FieldSpec)
    (hd : f.dflt = "today") :
    ((f.type = .text ∨ f.type = .date ∨ f.type = .number ∨ f.type = .select) →
      initialValue today f = .strVal today ∧
      clearValue today f = .strVal today) ∧
    (f.type = .textarea →
      initialValue today f = .strVal today ∧
      clearValue today f = .strVal "today") := by
  obtain ⟨fi, fl, ft, fd⟩ := f
  simp only at hd
  subst hd
  cases ft <;>
    simp [initialValue, clearValue, resolveToday]

/-- Witness for C7 at a concrete date field. -/
theorem C7_today_default_witness :
    initialValue "2024-01-15"
        (⟨"study_date", "Study Date:", .date, "today"⟩ : FieldSpec) =
      CtrlVal.strVal "2024-01-15" ∧
    clearValue "2024-01-15"
        (⟨"study_date", "Study Date:", .date, "today"⟩ : FieldSpec) =
      CtrlVal.strVal "2024-01-15" :=
  (C7_today_default "2024-01-15" _ rfl).1 (Or.inr (Or.inl rfl))

/-- The minimal template of a number-typed age field. -/
def ageTemplate : FormTemplate :=
  ⟨[⟨"s1", "1. Patient and Study Information",
     [⟨"patient_age", "Age:", .number, ""⟩]⟩]⟩

/-- Counterexample to C4 as stated: Python's integer conversion parses
`"-5"`, so attempting integer conversion first would store the integer
-5; the code instead gates the integer branch on `str.isdigit`, which
rejects the sign, so `"-5"` on a number-typed field is stored as the
float -5.0. -/
theorem C4_counterexample :
    pyIntOf "-5" = some (-5) ∧
    collect_data ageTemplate ⟨[("patient_age", .strVar "-5")], []⟩ =
      [("patient_age", Value.float (-5) 0)] ∧
    Value.float (-5) 0 ≠ Value.int (-5) := by
  decide

/-- C4 amended: the coercion stores an integer only when the non-empty
value of a number-typed field consists entirely of digit characters
(`str.isdigit`); otherwise it attempts floating-point conversion and
falls back to the raw string; fields not typed number and empty values
are stored as-is; `"42"` becomes the integer 42, `"3.5"` the float 3.5,
and `"abc"` stays the string `"abc"`. -/
theorem C4_numeric_coercion :
    (∀ (tmpl : FormTemplate) (fid s : String),
      is_number_field tmpl fid = true → s ≠ "" →
      collectVar tmpl fid (.strVar s) = pyNumCoerce s) ∧
    (∀ (tmpl : FormTemplate) (fid s : String),
      is_number_field tmpl fid = false →
      collectVar tmpl fid (.strVar s) = Value.str s) ∧
    (∀ (tmpl : FormTemplate) (fid : String),
      collectVar tmpl fid (.strVar "") = Value.str "") ∧
    (∀ s, pyIsdigit s = true → pyNumCoerce s = Value.int (digitsToNat s.data)) ∧
    pyNumCoerce "42" = Value.int 42 ∧
    pyNumCoerce "3.5" = Value.float 35 1 ∧
    pyNumCoerce "abc" = Value.str "abc" := by
  refine ⟨?_, ?_, ?_, ?_, by decide, by decide, by decide⟩
  · intro tmpl fid s hnum hne
    simp [collectVar, hnum, bne_iff_ne, hne]
  · intro tmpl fid s hnum
    simp [collectVar, hnum]
  · intro tmpl fid
    simp [collectVar]
  · intro s hd
    simp [pyNumCoerce, hd]

/-- Witness for C4 at concrete inputs. -/
theorem C4_numeric_coercion_witness :
    collectVar ageTemplate "patient_age" (.strVar "42") = Value.int 42 :=
  (C4_numeric_coercion.1 ageTemplate "patient_age" "42" (by decide)
    (by decide)).trans (by decide)

/-- C9: the value collected for a textarea field is the widget's full
text with surrounding whitespace stripped (the trailing newline appended
by the text widget included), and it is stored as a string for every
template — numeric coercion is never applied to textarea values,
whatever the field's declared type. -/
theorem C9_textarea_collection (tmpl : FormTemplate) (st : FormState)
    (fid text : String) (hmem : (fid, text) ∈ st.textareas)
    (hnd : (st.textareas.map Prod.fst).Nodup) :
    lookupVal (collect_data tmpl st) fid = some (Value.str (pyStrip text)) := by
  unfold collect_data
  rw [lookupVal_foldl_set_mem (fun kv => Value.str (pyStrip (kv.2 ++ "\n")))
    st.textareas _ fid text hmem hnd]
  rw [pyStrip_append_newline]

/-- Witness for C9: a textarea on a template that types the same id as
number still collects the stripped string. -/
theorem C9_textarea_collection_witness :
    lookupVal
      (collect_data
        ⟨[⟨"s1", "Sec", [⟨"notes", "Notes:", .number, ""⟩]⟩]⟩
        ⟨[], [("notes", "  hi there ")]⟩)
      "notes" = some (Value.str "hi there") :=
  (C9_textarea_collection
    ⟨[⟨"s1", "Sec", [⟨"notes", "Notes:", .number, ""⟩]⟩]⟩
    ⟨[], [("notes", "  hi there ")]⟩ "notes" "  hi there "
    (by decide) (by decide)).trans (by decide)
